import Mathlib

/-!
Verification of the rule-registry and orchestration controller of
src/snakemake/workflow.py against its natural-language specification.

The Python code is shallowly embedded: each relevant method becomes an
executable Lean function over explicit state, translated from the source.
Python dicts are modelled as association lists with insert-or-overwrite
semantics (unique keys, insertion order preserved), and Python truthiness
is modelled explicitly where the source relies on it.
-/

namespace Snakemake

/-! ## Association lists: the model of Python dict -/

/-- Lookup in an association list (Python `d[k]` / `d.get(k)`). -/
def alistGet {α : Type} (l : List (String × α)) (k : String) : Option α :=
  (l.find? (fun p => p.1 == k)).map Prod.snd

/-- Insert-or-overwrite (Python `d[k] = v`): replaces the first binding of
`k` if present, otherwise appends, preserving insertion order. -/
def alistSet {α : Type} (l : List (String × α)) (k : String) (v : α) :
    List (String × α) :=
  match l with
  | [] => [(k, v)]
  | p :: rest => if p.1 == k then (k, v) :: rest else p :: alistSet rest k v

/-- Python `d.update(other)`: sets every binding of `other` into `d`. -/
def pyDictUpdate {α : Type} (d other : List (String × α)) : List (String × α) :=
  other.foldl (fun acc kv => alistSet acc kv.1 kv.2) d

/-! ## Python values and truthiness (for the cache directive) -/

/-- The values a `cache:` directive can carry, as seen by the finalizer. -/
inductive PyVal where
  | pyNone
  | pyBool (b : Bool)
  | pyStr (s : String)
deriving DecidableEq, Repr

/-- Python truthiness: None and False are falsy, a string is truthy iff nonempty. -/
def PyVal.truthy : PyVal → Bool
  | .pyNone => false
  | .pyBool b => b
  | .pyStr s => !(s == "")

/-- Python `or`: the first operand if truthy, otherwise the second. -/
def pyOr (a b : PyVal) : PyVal := if a.truthy then a else b

/-- The guard expression as written in the source, line 1764:
`ruleinfo.cache is True or "omit-software" or "all"`. -/
def cacheGuard (cache : PyVal) : PyVal :=
  pyOr (pyOr (.pyBool (cache == .pyBool true)) (.pyStr "omit-software")) (.pyStr "all")

/-! ## Cache / benchmark validation at rule finalization
(Workflow.rule.decorate, workflow.py lines 1750-1782) -/

/-- An output file entry; only the multiext flag matters to the cache check. -/
structure OutFile where
  is_multiext : Bool
deriving DecidableEq, Repr

/-- The three WorkflowError raises in the cache/benchmark section of decorate. -/
inductive WError where
  | multiextCache
  | invalidCacheValue
  | benchmarkCache
deriving DecidableEq, Repr

/-- `len(rule.output) > 1 and not rule.output[0].is_multiext` (lines 1751-1752). -/
def outputCheckFails (output : List OutFile) : Bool :=
  match output with
  | o0 :: _ :: _ => !o0.is_multiext
  | _ => false

/-- Result of the cache/benchmark section: the error raised (if any), the
cache_rules map as mutated up to the raise, and whether the advisory
warning was logged. -/
structure CacheStepResult where
  err : Option WError
  cache_rules : List (String × PyVal)
  warned : Bool
deriving DecidableEq, Repr

/-- `self.cache_rules.get(rule.name)` (workflow.py line 501), with absence as None. -/
def get_cache_mode (cache_rules : List (String × PyVal)) (name : String) : PyVal :=
  match alistGet cache_rules name with
  | some v => v
  | none => .pyNone

/-- The cache/benchmark section of Workflow.rule.decorate (lines 1750-1782):
if the cache value is truthy, first the multiext check on the outputs, then
either the advisory warning (caching disabled) or the guarded recording into
cache_rules; finally the benchmark-vs-cache-mode check. -/
def cacheBenchmarkStep (enable_cache : Bool) (cache_rules : List (String × PyVal))
    (ruleName : String) (output : List OutFile) (cacheVal : PyVal)
    (benchmarkDefined : Bool) : CacheStepResult :=
  if cacheVal.truthy then
    if outputCheckFails output then
      ⟨some .multiextCache, cache_rules, false⟩
    else if !enable_cache then
      if benchmarkDefined && (get_cache_mode cache_rules ruleName).truthy then
        ⟨some .benchmarkCache, cache_rules, true⟩
      else
        ⟨none, cache_rules, true⟩
    else if (cacheGuard cacheVal).truthy then
      let cr := alistSet cache_rules ruleName
        (if cacheVal == .pyBool true then .pyStr "all" else cacheVal)
      if benchmarkDefined && (get_cache_mode cr ruleName).truthy then
        ⟨some .benchmarkCache, cr, false⟩
      else
        ⟨none, cr, false⟩
    else
      ⟨some .invalidCacheValue, cache_rules, false⟩
  else
    if benchmarkDefined && (get_cache_mode cache_rules ruleName).truthy then
      ⟨some .benchmarkCache, cache_rules, false⟩
    else
      ⟨none, cache_rules, false⟩

/-! ## Threads directive handling (Workflow.rule.decorate, lines 1563-1578) -/

/-- The kinds of value a `threads:` directive can carry. Floats are modelled
as rationals; `otherVal` covers every value that is neither int nor float nor
callable (e.g. the string "x"). -/
inductive ThreadsVal where
  | intVal (i : Int)
  | floatVal (q : Rat)
  | callableVal
  | otherVal (s : String)
deriving DecidableEq, Repr

/-- A resource value: integer, string, or resolver function. -/
inductive ResVal where
  | intVal (i : Int)
  | strVal (s : String)
  | callableVal
deriving DecidableEq, Repr

/-- Python `int()` applied to a float: truncation toward zero
(Int.tdiv truncates toward zero, matching CPython). -/
def pyIntTrunc (q : Rat) : Int := q.num.tdiv q.den

/-- Errors raised as RuleException during directive validation in decorate. -/
inductive RuleErr where
  | threadsInvalid
deriving DecidableEq, Repr

/-- The threads section of Workflow.rule.decorate (lines 1563-1578): reject a
value that is neither int, float nor callable; otherwise set resources
`_cores` from the CLI override if present, else from the (float-truncated)
directive value. `none` threads means the directive was absent. -/
def threadsStep (overwrite_threads : List (String × Int)) (name : String)
    (resources : List (String × ResVal)) (threads : Option ThreadsVal) :
    Except RuleErr (List (String × ResVal)) :=
  match threads with
  | none => .ok resources
  | some t =>
    match t with
    | .otherVal _ => .error .threadsInvalid
    | _ =>
      match alistGet overwrite_threads name with
      | some ov => .ok (alistSet resources "_cores" (.intVal ov))
      | none =>
        match t with
        | .intVal i => .ok (alistSet resources "_cores" (.intVal i))
        | .floatVal q => .ok (alistSet resources "_cores" (.intVal (pyIntTrunc q)))
        | _ => .ok (alistSet resources "_cores" .callableVal)

/-! ## Rule registration (Workflow.add_rule lines 550-575, Workflow.rule lines 1508-1530) -/

/-- A Rule record: the directive-valued attributes relevant here. -/
structure RuleRec where
  name : String
  input : List String
  output : List OutFile
  resources : List (String × ResVal)
  docstring : Option String
deriving DecidableEq, Repr

/-- Modelled from the spec: the Rule constructor (snakemake.rules.Rule, whose
module is not under src/) — a Rule is "created empty when first referenced by
name", so a fresh Rule carries the given name and no directive values. -/
def freshRule (name : String) : RuleRec :=
  { name := name, input := [], output := [], resources := [], docstring := none }

/-- The registry state touched by add_rule: the ordered name-to-Rule map,
the rule counter, and the default target. -/
structure RegistryState where
  rules : List (String × RuleRec)
  rule_count : Nat
  default_target : Option String
deriving DecidableEq, Repr

inductive AddRuleErr where
  | duplicateRule
deriving DecidableEq, Repr

/-- Result of add_rule: the error raised (if any), the registry state after
the call, and the name returned on success. -/
structure AddRuleResult where
  err : Option AddRuleErr
  state : RegistryState
  assignedName : Option String
deriving DecidableEq, Repr

/-- Workflow.add_rule (lines 550-575): raise CreateRuleException on a
duplicate name without overwrite permission (before any mutation); otherwise
install a fresh Rule, bump rule_count unless overwriting, and set the default
target if unset. -/
def add_rule (st : RegistryState) (name : String) (allow_overwrite : Bool) :
    AddRuleResult :=
  let is_overwrite := (alistGet st.rules name).isSome
  if !allow_overwrite && is_overwrite then
    ⟨some .duplicateRule, st, none⟩
  else
    let rule := freshRule name
    let rules2 := alistSet st.rules name rule
    let rc := if !is_overwrite then st.rule_count + 1 else st.rule_count
    let dt := if st.default_target.isNone then some name else st.default_target
    ⟨none, ⟨rules2, rc, dt⟩, some name⟩

/-- Name synthesis in Workflow.rule (lines 1508-1511): an unnamed rule is
named `str(len(self._rules) + 1)` — one past the current registry size. -/
def ruleRegisterName (st : RegistryState) (name : Option String) : String :=
  match name with
  | none => toString (st.rules.length + 1)
  | some n => n

/-- Workflow.rule up to registration (lines 1508-1530), with the default
modifier (identity renaming, no skipping, no overwrite permission). -/
def registerRule (st : RegistryState) (name : Option String) : AddRuleResult :=
  add_rule st (ruleRegisterName st name) false

/-! ## Environment-variable registration (Workflow.register_envvars, lines 1320-1342) -/

/-- An ASCII word character, as matched by the regular expression
`^\w+$` with re.ASCII. -/
def isWordChar (c : Char) : Bool := c.isAlphanum || c == '_'

/-- Whether a requested name matches `^\w+$` (ASCII): nonempty, all word
characters. -/
def validEnvvarName (s : String) : Bool := !s.isEmpty && s.toList.all isWordChar

inductive EnvvarErr where
  | invalidNames
  | undefinedVars
deriving DecidableEq, Repr

/-- Python set insertion (membership-preserving, order-insensitive model). -/
def setInsert (l : List String) (x : String) : List String :=
  if l.contains x then l else l ++ [x]

/-- Python `set.update(xs)`. -/
def setUpdate (l : List String) (xs : List String) : List String :=
  xs.foldl setInsert l

/-- Result of register_envvars: the error raised (if any) and the workflow's
envvars set afterwards. -/
structure EnvvarsResult where
  err : Option EnvvarErr
  envvars : List String
deriving DecidableEq, Repr

/-- Workflow.register_envvars (lines 1320-1342): reject any name failing the
identifier pattern; with strict checking, reject any requested variable
missing from the process environment; both raises occur before the update,
which on success takes the union. -/
def register_envvars (check_envvars : Bool) (os_environ : List String)
    (envvars : List String) (requested : List String) : EnvvarsResult :=
  let invalid_envvars := requested.filter (fun v => !validEnvvarName v)
  if !invalid_envvars.isEmpty then
    ⟨some .invalidNames, envvars⟩
  else
    let undefined := requested.filter (fun v => !os_environ.contains v)
    if check_envvars && !undefined.isEmpty then
      ⟨some .undefinedVars, envvars⟩
    else
      ⟨none, setUpdate envvars requested⟩

/-! ## Sub-workflow globals backup and restore (Workflow.execute, lines 908-952) -/

/-- The sub-workflow block of Workflow.execute as it affects the globals
dict: `globals_backup = dict(self.globals)` before the nested runs, an
arbitrary mutation by the nested runs, then
`self.globals.update(globals_backup)`. -/
def subworkflowGlobalsRestore (globals0 : List (String × Nat))
    (mutate : List (String × Nat) → List (String × Nat)) : List (String × Nat) :=
  let globals_backup := globals0
  let mutated := mutate globals0
  pyDictUpdate mutated globals_backup

/-! ## Local `use rule` cloning (Workflow.userule, lines 2097-2126)

RuleInfo objects hold references to mutable directive values; to express what
`copy.copy` (the source, line 2121) shares and what a deep copy would not, the
heap of mutable directive values is explicit: a cell store indexed by natural
numbers, with a RuleInfo holding a reference to its params list. -/

/-- The store of mutable directive values (here: params lists). -/
structure PyHeap where
  cells : List (List String)
deriving DecidableEq, Repr

/-- A RuleInfo object: holds a reference to its params directive value. -/
structure RuleInfoObj where
  paramsRef : Nat
deriving DecidableEq, Repr

def heapGet (h : PyHeap) (r : Nat) : List String := (h.cells[r]?).getD []

def heapSet (h : PyHeap) (r : Nat) (v : List String) : PyHeap := ⟨h.cells.set r v⟩

def heapAlloc (h : PyHeap) (v : List String) : PyHeap × Nat :=
  (⟨h.cells ++ [v]⟩, h.cells.length)

/-- `copy.copy(orig_rule.ruleinfo)` (line 2121): a new RuleInfo object whose
fields are the same references as the original's. -/
def copyShallowRuleInfo (ri : RuleInfoObj) : RuleInfoObj := ⟨ri.paramsRef⟩

/-- Modelled from the spec: "the original Rule's accumulated directives are
deep-copied" — a new RuleInfo whose mutable directive values are freshly
allocated copies, sharing nothing with the original. -/
def copyDeepRuleInfo (h : PyHeap) (ri : RuleInfoObj) : PyHeap × RuleInfoObj :=
  let alloc := heapAlloc h (heapGet h ri.paramsRef)
  (alloc.1, ⟨alloc.2⟩)

/-- In-place mutation of a rule's params directive value (e.g. list.append
through the shared reference). -/
def appendParam (h : PyHeap) (ri : RuleInfoObj) (x : String) : PyHeap :=
  heapSet h ri.paramsRef (heapGet h ri.paramsRef ++ [x])

/-- Reassignment of the params field to a fresh value (`ruleinfo.params = v`):
allocates a new cell and repoints the object, leaving the old cell intact. -/
def reassignParams (h : PyHeap) (v : List String) : PyHeap × RuleInfoObj :=
  let alloc := heapAlloc h v
  (alloc.1, ⟨alloc.2⟩)

/-- The params directive value a RuleInfo observes. -/
def paramsOf (h : PyHeap) (ri : RuleInfoObj) : List String := heapGet h ri.paramsRef

inductive UseRuleErr where
  | multipleRulesLocal
deriving DecidableEq, Repr

/-- The local-inheritance branch of Workflow.userule (lines 2097-2126, no
from_module, default modifier): more than one rule name raises a
WorkflowError; otherwise the clone is seeded from `copy.copy` of the source
rule's ruleinfo. -/
def userule_local (h : PyHeap) (orig : RuleInfoObj) (rules : List String) :
    Except UseRuleErr (PyHeap × RuleInfoObj) :=
  if rules.length > 1 then .error .multipleRulesLocal
  else .ok (h, copyShallowRuleInfo orig)

/-! ## The run state machine (Workflow.execute, lines 700-1140)

Control-flow skeleton of Workflow.execute: each early `return` of the source
is a branch, in source order; external collaborator outcomes (wait_for_files,
sub-workflow runs, the missing-input scan, the scheduler) are inputs. -/

/-- The inputs that decide Workflow.execute's control flow, in source order. -/
structure ExecOpts where
  wait_for_files_failed : Bool
  cleanup_metadata : Bool
  unlock : Bool
  unlock_ok : Bool
  cleanup_shadow : Bool
  containerize : Bool
  has_subworkflows : Bool
  execute_subworkflows : Bool
  subworkflow_failed : Bool
  nodeps : Bool
  missing_input : Bool
  immediate_submit : Bool
  has_checkpoint_jobs : Bool
  generate_unit_tests : Bool
  export_cwl : Bool
  report : Bool
  printd3dag : Bool
  printdag : Bool
  printrulegraph : Bool
  printfilegraph : Bool
  summary : Bool
  detailed_summary : Bool
  archive : Bool
  delete_all_output : Bool
  delete_temp_output : Bool
  list_version_changes : Bool
  list_code_changes : Bool
  list_input_changes : Bool
  list_params_changes : Bool
  list_untracked : Bool
  use_conda : Bool
  conda_create_envs_only : Bool
  list_conda_envs : Bool
  conda_cleanup_envs : Bool
  cleanup_containers : Bool
  scheduler_success : Bool
deriving DecidableEq, Repr

/-- Outcome of a run: the boolean the source returns, and whether the
JobScheduler was constructed (source line 1102) on this path. -/
structure ExecResult where
  ok : Bool
  schedulerConstructed : Bool
deriving DecidableEq, Repr

/-- Workflow.execute (lines 700-1140) as a decision sequence over its early
returns, in source order: wait_for_files failure; the cleanup_metadata,
unlock, cleanup_shadow and containerize maintenance actions; a failing
sub-workflow (the block runs only when sub-workflows exist, are to be
executed, and none of the three print modes is set); the nodeps
missing-input abort; the immediate-submit/checkpoint rejection; the
unit-test, CWL-export, report, print, summary, archive, clean and
change-list inspection branches; the conda-only provisioning returns;
finally the JobScheduler construction and run. -/
def execute (o : ExecOpts) : ExecResult :=
  if o.wait_for_files_failed then ⟨false, false⟩
  else if o.cleanup_metadata then ⟨true, false⟩
  else if o.unlock then ⟨o.unlock_ok, false⟩
  else if o.cleanup_shadow then ⟨true, false⟩
  else if o.containerize then ⟨true, false⟩
  else if o.has_subworkflows && o.execute_subworkflows && !o.printdag
          && !o.printrulegraph && !o.printfilegraph && o.subworkflow_failed then
    ⟨false, false⟩
  else if o.nodeps && o.missing_input then ⟨false, false⟩
  else if o.immediate_submit && o.has_checkpoint_jobs then ⟨false, false⟩
  else if o.generate_unit_tests then ⟨true, false⟩
  else if o.export_cwl then ⟨true, false⟩
  else if o.report then ⟨true, false⟩
  else if o.printd3dag then ⟨true, false⟩
  else if o.printdag then ⟨true, false⟩
  else if o.printrulegraph then ⟨true, false⟩
  else if o.printfilegraph then ⟨true, false⟩
  else if o.summary then ⟨true, false⟩
  else if o.detailed_summary then ⟨true, false⟩
  else if o.archive then ⟨true, false⟩
  else if o.delete_all_output then ⟨true, false⟩
  else if o.delete_temp_output then ⟨true, false⟩
  else if o.list_version_changes then ⟨true, false⟩
  else if o.list_code_changes then ⟨true, false⟩
  else if o.list_input_changes then ⟨true, false⟩
  else if o.list_params_changes then ⟨true, false⟩
  else if o.list_untracked then ⟨true, false⟩
  else if o.use_conda && o.conda_create_envs_only then ⟨true, false⟩
  else if o.list_conda_envs then ⟨true, false⟩
  else if o.conda_cleanup_envs then ⟨true, false⟩
  else if o.cleanup_containers then ⟨true, false⟩
  else ⟨o.scheduler_success, true⟩

/-- A concrete run request: execution mode (no maintenance action, no
inspection mode), immediate-submit set, a checkpoint job present. -/
def execOptsW : ExecOpts :=
  ⟨false, false, false, false, false, false, false, false, false, false, false,
   true, true, false, false, false, false, false, false, false, false, false,
   false, false, false, false, false, false, false, false, false, false, false,
   false, false, true⟩

/-! ## Supporting lemmas -/

theorem alistGet_alistSet_self {α : Type} (l : List (String × α)) (k : String) (v : α) :
    alistGet (alistSet l k v) k = some v := by
  induction l with
  | nil => simp [alistGet, alistSet, List.find?]
  | cons p rest ih =>
    simp only [alistSet]
    by_cases h : p.1 = k
    · simp [h, alistGet, List.find?]
    · have hb : (p.1 == k) = false := by simpa using h
      simp only [hb, if_false]
      simpa [alistGet, List.find?, hb] using ih

theorem alistGet_alistSet_ne {α : Type} (l : List (String × α)) (k k2 : String) (v : α)
    (h : k ≠ k2) : alistGet (alistSet l k2 v) k = alistGet l k := by
  induction l with
  | nil =>
    have hb : (k2 == k) = false := by simpa using (Ne.symm h)
    simp [alistGet, alistSet, List.find?, hb]
  | cons p rest ih =>
    simp only [alistSet]
    by_cases hp : p.1 = k2
    · have hb : (k2 == k) = false := by simpa using (Ne.symm h)
      have hbp : (p.1 == k) = false := by simpa [hp] using (Ne.symm h)
      simp [alistGet, List.find?, hb, hp, hbp]
    · have hbp : (p.1 == k2) = false := by simpa using hp
      simp only [hbp, if_false]
      by_cases hk : p.1 = k
      · simp [alistGet, List.find?, hk]
      · have hbk : (p.1 == k) = false := by simpa using hk
        simpa [alistGet, List.find?, hbk] using ih

theorem cacheGuard_truthy (cache : PyVal) : (cacheGuard cache).truthy = true := by
  cases cache with
  | pyNone => rfl
  | pyBool b => cases b <;> rfl
  | pyStr s => rfl


theorem alistGet_eq_none_iff {α : Type} (l : List (String × α)) (k : String) :
    alistGet l k = none ↔ k ∉ l.map Prod.fst := by
  induction l with
  | nil => simp [alistGet]
  | cons p rest ih =>
    by_cases h : p.1 = k
    · have hb : (p.1 == k) = true := by simpa using h
      simp [alistGet, List.find?, hb, h]
    · have hb : (p.1 == k) = false := by simpa using h
      have hstep : alistGet (p :: rest) k = alistGet rest k := by
        simp [alistGet, List.find?, hb]
      rw [hstep, ih]
      simp only [List.map_cons, List.mem_cons, not_or]
      constructor
      · exact fun hk => ⟨fun he => h he.symm, hk⟩
      · exact fun hk => hk.2

theorem alistGet_pyDictUpdate_not_mem {α : Type} (d other : List (String × α))
    (k : String) (h : k ∉ other.map Prod.fst) :
    alistGet (pyDictUpdate d other) k = alistGet d k := by
  induction other generalizing d with
  | nil => rfl
  | cons p rest ih =>
    simp only [List.map_cons, List.mem_cons] at h
    push_neg at h
    have step : pyDictUpdate d (p :: rest) = pyDictUpdate (alistSet d p.1 p.2) rest := rfl
    rw [step, ih _ h.2]
    exact alistGet_alistSet_ne d k p.1 p.2 h.1

theorem alistGet_pyDictUpdate_mem {α : Type} (d other : List (String × α))
    (k : String) (v : α) (hnd : (other.map Prod.fst).Nodup)
    (h : alistGet other k = some v) :
    alistGet (pyDictUpdate d other) k = some v := by
  induction other generalizing d with
  | nil => simp [alistGet] at h
  | cons p rest ih =>
    simp only [List.map_cons, List.nodup_cons] at hnd
    have step : pyDictUpdate d (p :: rest) = pyDictUpdate (alistSet d p.1 p.2) rest := rfl
    by_cases hk : p.1 = k
    · have hb : (p.1 == k) = true := by simpa using hk
      simp only [alistGet, List.find?, hb] at h
      rw [step, alistGet_pyDictUpdate_not_mem _ _ _ (hk ▸ hnd.1), hk,
        alistGet_alistSet_self]
      simpa using h
    · have hb : (p.1 == k) = false := by simpa using hk
      simp only [alistGet, List.find?, hb] at h
      rw [← alistGet] at h
      exact step ▸ ih _ hnd.2 h

theorem mem_setInsert (l : List String) (x y : String) :
    y ∈ setInsert l x ↔ (y ∈ l ∨ y = x) := by
  simp only [setInsert]
  split
  · rename_i h
    have hx : x ∈ l := by simpa using h
    constructor
    · exact fun hy => Or.inl hy
    · rintro (hy | rfl)
      · exact hy
      · exact hx
  · simp [List.mem_append]

theorem mem_setUpdate (l xs : List String) (y : String) :
    y ∈ setUpdate l xs ↔ (y ∈ l ∨ y ∈ xs) := by
  induction xs generalizing l with
  | nil => simp [setUpdate]
  | cons x rest ih =>
    have step : setUpdate l (x :: rest) = setUpdate (setInsert l x) rest := rfl
    rw [step, ih, mem_setInsert]
    simp only [List.mem_cons]
    tauto

theorem heapGet_heapAlloc_old (h : PyHeap) (v : List String) (r : Nat)
    (hr : r < h.cells.length) : heapGet (heapAlloc h v).1 r = heapGet h r := by
  simp only [heapGet, heapAlloc]
  rw [List.getElem?_append_left hr]

theorem heapGet_heapSet_self (h : PyHeap) (r : Nat) (v : List String)
    (hr : r < h.cells.length) : heapGet (heapSet h r v) r = v := by
  simp only [heapGet, heapSet]
  rw [List.getElem?_set_eq_of_lt _ hr]
  rfl

/-! ## Claim theorems -/

/-- C1 (counterexample): a rule with two outputs not declared via multiext and
a cache directive fails with the multiext WorkflowError even when
between-workflow caching is DISABLED — the claim says that with caching
disabled finalization only logs an advisory warning and succeeds. -/
theorem C1_counterexample :
    (cacheBenchmarkStep false [] "r" [⟨false⟩, ⟨false⟩] (.pyBool true) false).err
        = some .multiextCache ∧
    (cacheBenchmarkStep false [] "r" [⟨false⟩, ⟨false⟩] (.pyBool true) false).warned
        = false := by
  decide

/-- C1 (amended): if a rule carries a truthy cache directive and its output
set fails the multiext check (more than one output, first not multiext),
finalization fails with the multiext WorkflowError regardless of whether
caching is enabled; with caching disabled, a cache-marked rule that passes
the multiext check (and does not trip the benchmark check) only logs the
advisory warning and succeeds. -/
theorem C1_cache_multiext (ec : Bool) (cr : List (String × PyVal)) (n : String)
    (out : List OutFile) (cv : PyVal) (bm : Bool) (hc : cv.truthy = true) :
    (outputCheckFails out = true →
      (cacheBenchmarkStep ec cr n out cv bm).err = some .multiextCache ∧
      (cacheBenchmarkStep ec cr n out cv bm).warned = false) ∧
    (ec = false → outputCheckFails out = false →
      (bm && (get_cache_mode cr n).truthy) = false →
      (cacheBenchmarkStep ec cr n out cv bm).err = none ∧
      (cacheBenchmarkStep ec cr n out cv bm).warned = true) := by
  constructor
  · intro ho
    simp [cacheBenchmarkStep, hc, ho]
  · intro he ho hb
    simp [cacheBenchmarkStep, hc, ho, he, hb]

/-- C1 (witness): the amended theorem applied at a concrete rule with caching
enabled, two non-multiext outputs and cache True. -/
theorem C1_witness :
    (PyVal.pyBool true).truthy = true ∧
    outputCheckFails [⟨false⟩, ⟨false⟩] = true ∧
    (cacheBenchmarkStep true [] "r" [⟨false⟩, ⟨false⟩] (.pyBool true) false).err
        = some .multiextCache :=
  ⟨by decide, by decide,
    ((C1_cache_multiext true [] "r" [⟨false⟩, ⟨false⟩] (.pyBool true) false
      (by decide)).1 (by decide)).1⟩

/-- C4 (counterexample): with between-workflow caching disabled, a rule
carrying both a benchmark directive and a cache directive passes finalization
with only the advisory warning — the claim says every such rule fails. -/
theorem C4_counterexample :
    (cacheBenchmarkStep false [] "r" [⟨false⟩] (.pyBool true) true).err = none ∧
    (cacheBenchmarkStep false [] "r" [⟨false⟩] (.pyBool true) true).warned = true := by
  decide

/-- C4 (amended): a rule with both a benchmark directive and a truthy cache
directive fails with the benchmark/cache WorkflowError when caching is
enabled; when caching is disabled (and no cache mode was recorded for the
rule, e.g. via the CLI cache list) the combination succeeds with only the
advisory warning and no cache mode is recorded. -/
theorem C4_benchmark_cache (cr : List (String × PyVal)) (n : String)
    (out : List OutFile) (cv : PyVal) (hc : cv.truthy = true)
    (ho : outputCheckFails out = false) :
    ((cacheBenchmarkStep true cr n out cv true).err = some .benchmarkCache) ∧
    ((get_cache_mode cr n).truthy = false →
      (cacheBenchmarkStep false cr n out cv true).err = none ∧
      (cacheBenchmarkStep false cr n out cv true).cache_rules = cr ∧
      (cacheBenchmarkStep false cr n out cv true).warned = true) := by
  constructor
  · have hg := cacheGuard_truthy cv
    by_cases h : cv = PyVal.pyBool true
    · have hb : (cv == PyVal.pyBool true) = true := by simpa using h
      have hgm : get_cache_mode (alistSet cr n (PyVal.pyStr "all")) n
          = PyVal.pyStr "all" := by
        simp [get_cache_mode, alistGet_alistSet_self]
      have htr : (PyVal.pyStr "all").truthy = true := by decide
      simp [cacheBenchmarkStep, hc, ho, hg, hb, hgm, htr]
    · have hb : (cv == PyVal.pyBool true) = false := by simpa using h
      have hgm : get_cache_mode (alistSet cr n cv) n = cv := by
        simp [get_cache_mode, alistGet_alistSet_self]
      simp [cacheBenchmarkStep, hc, ho, hg, hb, hgm]
  · intro hm
    simp [cacheBenchmarkStep, hc, ho, hm]

/-- C4 (witness): the amended theorem applied at a concrete single-output rule
with benchmark and cache True, in both the caching-enabled and disabled
configurations. -/
theorem C4_witness :
    (PyVal.pyBool true).truthy = true ∧
    outputCheckFails [⟨false⟩] = false ∧
    (cacheBenchmarkStep true [] "r" [⟨false⟩] (.pyBool true) true).err
        = some .benchmarkCache ∧
    (cacheBenchmarkStep false [] "r" [⟨false⟩] (.pyBool true) true).err = none :=
  ⟨by decide, by decide,
    (C4_benchmark_cache [] "r" [⟨false⟩] (.pyBool true) (by decide) (by decide)).1,
    ((C4_benchmark_cache [] "r" [⟨false⟩] (.pyBool true) (by decide) (by decide)).2
      (by decide)).1⟩

/-- C9: the guard `ruleinfo.cache is True or "omit-software" or "all"` is
truthy for every cache value, so the invalid-cache-directive error is
unreachable, and with caching enabled any truthy cache value — including an
arbitrary nonempty string — is recorded in the per-rule cache map ("all" for
True, the value itself otherwise). -/
theorem C9_invalid_cache_unreachable (ec : Bool) (cr : List (String × PyVal))
    (n : String) (out : List OutFile) (cv : PyVal) (bm : Bool) :
    ((cacheGuard cv).truthy = true) ∧
    ((cacheBenchmarkStep ec cr n out cv bm).err ≠ some .invalidCacheValue) ∧
    (cv.truthy = true → ec = true → outputCheckFails out = false →
      alistGet (cacheBenchmarkStep ec cr n out cv bm).cache_rules n
        = some (if cv == .pyBool true then PyVal.pyStr "all" else cv)) := by
  refine ⟨cacheGuard_truthy cv, ?_, ?_⟩
  · have hg := cacheGuard_truthy cv
    simp only [cacheBenchmarkStep, hg, ite_true]
    repeat' split
    all_goals simp
  · intro hc he ho
    have hg := cacheGuard_truthy cv
    have hcr : (cacheBenchmarkStep ec cr n out cv bm).cache_rules
        = alistSet cr n (if cv == PyVal.pyBool true then PyVal.pyStr "all" else cv) := by
      simp [cacheBenchmarkStep, hc, ho, he, hg]
      repeat' split
      all_goals rfl
    rw [hcr]
    exact alistGet_alistSet_self cr n _

/-- C9 (witness): with caching enabled, the invalid string "bogus" as cache
value raises no error and is recorded verbatim for the rule. -/
theorem C9_witness :
    (PyVal.pyStr "bogus").truthy = true ∧
    (cacheBenchmarkStep true [] "r" [⟨false⟩] (.pyStr "bogus") false).err
        ≠ some .invalidCacheValue ∧
    alistGet (cacheBenchmarkStep true [] "r" [⟨false⟩] (.pyStr "bogus") false).cache_rules "r"
        = some (.pyStr "bogus") :=
  ⟨by decide,
    (C9_invalid_cache_unreachable true [] "r" [⟨false⟩] (.pyStr "bogus") false).2.1,
    by
      have h := (C9_invalid_cache_unreachable true [] "r" [⟨false⟩]
        (.pyStr "bogus") false).2.2 (by decide) rfl (by decide)
      simpa using h⟩

/-- C2 (counterexample): after one explicitly named rule, the first unnamed
rule is assigned the name "2", not "1" — the synthesized numeric names are
not independent of named-rule interleaving. -/
theorem C2_counterexample :
    (registerRule (registerRule ⟨[], 0, none⟩ (some "a")).state none).assignedName
        = some "2" ∧ some "2" ≠ some "1" := by
  constructor
  · rfl
  · decide

/-- C2 (amended): a registration without an explicit name is assigned
`str(len(self._rules) + 1)` — one past the TOTAL registry size at that
moment, named rules included — so interleaved named rules shift the numeric
names; the registration succeeds whenever that synthesized name is free. -/
theorem C2_unnamed_rule_name (st : RegistryState)
    (hfree : (alistGet st.rules (toString (st.rules.length + 1))).isSome = false) :
    ruleRegisterName st none = toString (st.rules.length + 1) ∧
    (registerRule st none).err = none ∧
    (registerRule st none).assignedName = some (toString (st.rules.length + 1)) := by
  refine ⟨rfl, ?_, ?_⟩ <;>
    simp [registerRule, ruleRegisterName, add_rule, hfree]

/-- C2 (witness): on the empty registry the synthesized name is "1" and
registration succeeds. -/
theorem C2_witness :
    (alistGet (⟨[], 0, none⟩ : RegistryState).rules (toString (0 + 1))).isSome = false ∧
    (registerRule ⟨[], 0, none⟩ none).assignedName = some (toString (0 + 1)) :=
  ⟨by decide, (C2_unnamed_rule_name ⟨[], 0, none⟩ (by decide)).2.2⟩

/-- C3 (counterexample): a binding created during sub-workflow execution
survives `self.globals.update(globals_backup)`: starting from empty globals,
a nested run that adds the key "leaked" leaves it visible afterwards, so the
final namespace differs from the pre-sub-workflow state. -/
theorem C3_counterexample :
    subworkflowGlobalsRestore [] (fun g => alistSet g "leaked" 1) = [("leaked", 1)] ∧
    ([("leaked", 1)] : List (String × Nat)) ≠ [] := by
  constructor
  · rfl
  · decide

/-- C3 (amended): after the nested runs, `update(globals_backup)` restores
every binding that existed before (to its old value), but a binding created
by a nested run under a fresh key remains visible with the nested run's
value; the namespace is not restored wholesale. -/
theorem C3_globals_restore (g0 : List (String × Nat))
    (mutate : List (String × Nat) → List (String × Nat)) (k : String)
    (hnd : (g0.map Prod.fst).Nodup) :
    (∀ v, alistGet g0 k = some v →
      alistGet (subworkflowGlobalsRestore g0 mutate) k = some v) ∧
    (alistGet g0 k = none →
      alistGet (subworkflowGlobalsRestore g0 mutate) k = alistGet (mutate g0) k) := by
  constructor
  · intro v hv
    exact alistGet_pyDictUpdate_mem _ _ _ _ hnd hv
  · intro hnone
    exact alistGet_pyDictUpdate_not_mem _ _ _ ((alistGet_eq_none_iff g0 k).mp hnone)

/-- C3 (witness): a pre-existing binding x=5 is restored even after a nested
run overwrites it to 7. -/
theorem C3_witness :
    ((([("x", 5)] : List (String × Nat)).map Prod.fst).Nodup ∧
      alistGet [("x", 5)] "x" = some 5) ∧
    alistGet (subworkflowGlobalsRestore [("x", 5)] (fun g => alistSet g "x" 7)) "x"
        = some 5 :=
  ⟨⟨by decide, by decide⟩,
    (C3_globals_restore [("x", 5)] (fun g => alistSet g "x" 7) "x" (by decide)).1
      5 (by decide)⟩

/-- C5 (counterexample): the local use-rule clone is seeded from `copy.copy`
of the source ruleinfo, so it shares the source's mutable directive values:
with one cell ["p1"] referenced by the source, the clone returned for a
single-name use-rule holds the same reference, and an in-place append "p2"
through the source is visible through the clone — unlike a deep copy, whose
clone still observes ["p1"]. The claimed deep-copy independence fails. -/
theorem C5_counterexample :
    userule_local ⟨[["p1"]]⟩ ⟨0⟩ ["a"] = .ok (⟨[["p1"]]⟩, ⟨0⟩) ∧
    paramsOf (appendParam ⟨[["p1"]]⟩ ⟨0⟩ "p2") (⟨0⟩ : RuleInfoObj) = ["p1", "p2"] ∧
    (["p1", "p2"] : List String) ≠ ["p1"] ∧
    paramsOf (appendParam (copyDeepRuleInfo ⟨[["p1"]]⟩ ⟨0⟩).1 ⟨0⟩ "p2")
        (copyDeepRuleInfo ⟨[["p1"]]⟩ ⟨0⟩).2 = ["p1"] := by
  refine ⟨rfl, rfl, by decide, rfl⟩

/-- C5 (amended): a local use-rule with more than one rule name fails with
the WorkflowError; with one name the clone is a SHALLOW copy (`copy.copy`)
of the source ruleinfo, so reassigning a directive field on the source
afterwards does not affect the clone, while in-place mutation of a shared
directive value is seen by both. -/
theorem C5_userule_local (h : PyHeap) (orig : RuleInfoObj) (rules : List String)
    (v : List String) (hr : orig.paramsRef < h.cells.length) :
    (rules.length > 1 → userule_local h orig rules = .error .multipleRulesLocal) ∧
    paramsOf (reassignParams h v).1 (copyShallowRuleInfo orig) = paramsOf h orig ∧
    paramsOf (appendParam h orig "x") (copyShallowRuleInfo orig)
        = paramsOf h orig ++ ["x"] := by
  refine ⟨?_, ?_, ?_⟩
  · intro hlen
    simp [userule_local, hlen]
  · exact heapGet_heapAlloc_old h v orig.paramsRef hr
  · exact heapGet_heapSet_self h orig.paramsRef _ hr

/-- C5 (witness): the amended theorem at a one-cell heap: two names error
out, field reassignment leaves the clone at ["p1"], in-place append is
shared. -/
theorem C5_witness :
    (0 : Nat) < 1 ∧ (["a", "b"] : List String).length > 1 ∧
    userule_local ⟨[["p1"]]⟩ ⟨0⟩ ["a", "b"] = .error .multipleRulesLocal ∧
    paramsOf (reassignParams ⟨[["p1"]]⟩ ["q"]).1 (copyShallowRuleInfo ⟨0⟩) = ["p1"] :=
  ⟨by decide, by decide,
    (C5_userule_local ⟨[["p1"]]⟩ ⟨0⟩ ["a", "b"] ["q"] (by decide)).1 (by decide),
    (C5_userule_local ⟨[["p1"]]⟩ ⟨0⟩ ["a", "b"] ["q"] (by decide)).2.1⟩

/-- C6: registering a name already present without overwrite permission
fails with the duplicate-rule error and leaves the registry state unchanged;
with overwrite permission it succeeds and the name maps to a completely
fresh Rule, carrying no directive value of the old one. -/
theorem C6_add_rule (st : RegistryState) (n : String)
    (hdup : (alistGet st.rules n).isSome = true) :
    ((add_rule st n false).err = some .duplicateRule ∧
      (add_rule st n false).state = st) ∧
    ((add_rule st n true).err = none ∧
      alistGet (add_rule st n true).state.rules n = some (freshRule n)) := by
  constructor
  · simp [add_rule, hdup]
  · simp [add_rule, hdup, alistGet_alistSet_self]

/-- C6 (witness): a registry holding rule "a" with a populated docstring:
re-registration without permission errors and changes nothing; with
permission the stored Rule is the fresh empty one. -/
theorem C6_witness :
    (alistGet [("a", { freshRule "a" with docstring := some "old" })] "a").isSome
        = true ∧
    (add_rule ⟨[("a", { freshRule "a" with docstring := some "old" })], 1, some "a"⟩
        "a" false).err = some .duplicateRule ∧
    alistGet (add_rule
        ⟨[("a", { freshRule "a" with docstring := some "old" })], 1, some "a"⟩
        "a" true).state.rules "a" = some (freshRule "a") :=
  ⟨by decide,
    ((C6_add_rule ⟨[("a", { freshRule "a" with docstring := some "old" })], 1, some "a"⟩
      "a" (by decide)).1).1,
    ((C6_add_rule ⟨[("a", { freshRule "a" with docstring := some "old" })], 1, some "a"⟩
      "a" (by decide)).2).2⟩

/-- C7: a float threads value of 3.9 is truncated toward zero, setting
resource `_cores` to 3 (absent a CLI threads override for the rule); a
threads value that is neither int, float nor callable fails with the
RuleException. -/
theorem C7_threads (ot : List (String × Int)) (n : String)
    (res : List (String × ResVal)) (hov : alistGet ot n = none) :
    (threadsStep ot n res (some (.floatVal (39 / 10)))
        = .ok (alistSet res "_cores" (.intVal 3)) ∧
      alistGet (alistSet res "_cores" (.intVal 3)) "_cores" = some (.intVal 3)) ∧
    (∀ s, threadsStep ot n res (some (.otherVal s)) = .error .threadsInvalid) := by
  refine ⟨⟨?_, alistGet_alistSet_self res "_cores" _⟩, fun s => rfl⟩
  have hnum : ((39 : Rat) / 10).num = 39 := by norm_num
  have hden : ((39 : Rat) / 10).den = 10 := by norm_num
  have ht : pyIntTrunc (39 / 10) = 3 := by
    unfold pyIntTrunc
    rw [hnum, hden]
    decide
  simp [threadsStep, hov, ht]

/-- C7 (witness): the theorem at an empty override map and empty resources. -/
theorem C7_witness :
    alistGet ([] : List (String × Int)) "r" = none ∧
    threadsStep [] "r" [] (some (.floatVal (39 / 10)))
        = .ok [("_cores", .intVal 3)] ∧
    threadsStep [] "r" [] (some (.otherVal "x")) = .error .threadsInvalid :=
  ⟨by decide,
    ((C7_threads [] "r" [] (by decide)).1).1,
    (C7_threads [] "r" [] (by decide)).2 "x"⟩

/-- C8: in immediate-submit mode with at least one checkpoint job in the
resolved job set, the scheduler is never constructed on any path; and an
execution-mode run (none of the maintenance early-exits requested) returns
failure. -/
theorem C8_immediate_submit (o : ExecOpts)
    (h1 : o.immediate_submit = true) (h2 : o.has_checkpoint_jobs = true) :
    (execute o).schedulerConstructed = false ∧
    (o.wait_for_files_failed = false → o.cleanup_metadata = false →
      o.unlock = false → o.cleanup_shadow = false → o.containerize = false →
      execute o = ⟨false, false⟩) := by
  constructor
  · simp only [execute, h1, h2, Bool.and_self, if_true]
    repeat' split
    all_goals rfl
  · intro hw hm hu hs hc
    simp only [execute, h1, h2, hw, hm, hu, hs, hc, Bool.and_self, if_true,
      Bool.false_eq_true, if_false]
    repeat' split
    all_goals rfl

/-- C8 (witness): the theorem at a run with all flags clear except
immediate-submit and a checkpoint job present. -/
theorem C8_witness :
    execOptsW.immediate_submit = true ∧ execOptsW.has_checkpoint_jobs = true ∧
    execute execOptsW = ⟨false, false⟩ :=
  ⟨rfl, rfl, (C8_immediate_submit execOptsW rfl rfl).2 rfl rfl rfl rfl rfl⟩

/-- C10: register_envvars is atomic: any requested name failing the
identifier pattern errors with the set unchanged; with strict checking, any
requested variable missing from the process environment errors with the set
unchanged; on success the result is exactly the union of the old set and the
requested names. -/
theorem C10_register_envvars (check : Bool) (env envv req : List String) :
    ((∃ v ∈ req, validEnvvarName v = false) →
      (register_envvars check env envv req).err = some .invalidNames ∧
      (register_envvars check env envv req).envvars = envv) ∧
    ((∀ v ∈ req, validEnvvarName v = true) → check = true →
      (∃ v ∈ req, v ∉ env) →
      (register_envvars check env envv req).err = some .undefinedVars ∧
      (register_envvars check env envv req).envvars = envv) ∧
    ((register_envvars check env envv req).err = none →
      ∀ v, v ∈ (register_envvars check env envv req).envvars ↔
        (v ∈ envv ∨ v ∈ req)) := by
  refine ⟨?_, ?_, ?_⟩
  · rintro ⟨v, hv, hbad⟩
    have hne : (req.filter (fun w => !validEnvvarName w)).isEmpty = false := by
      rw [List.isEmpty_eq_false_iff_exists_mem]
      exact ⟨v, List.mem_filter.mpr ⟨hv, by simp [hbad]⟩⟩
    simp only [register_envvars, hne, Bool.not_false, if_true]
    exact ⟨trivial, trivial⟩
  · rintro hall hchk ⟨v, hv, hout⟩
    have hemp : (req.filter (fun w => !validEnvvarName w)).isEmpty = true := by
      rw [List.isEmpty_iff, List.filter_eq_nil_iff]
      intro w hw
      simp [hall w hw]
    have hne : (req.filter (fun w => !env.contains w)).isEmpty = false := by
      rw [List.isEmpty_eq_false_iff_exists_mem]
      exact ⟨v, List.mem_filter.mpr ⟨hv, by simpa using hout⟩⟩
    simp only [register_envvars, hemp, hchk, hne, Bool.not_true, Bool.not_false,
      Bool.false_eq_true, if_false, Bool.true_and, if_true]
    exact ⟨trivial, trivial⟩
  · intro hok v
    by_cases h1 : (req.filter (fun w => !validEnvvarName w)).isEmpty = true
    · by_cases h2 : (check && !(req.filter (fun w => !env.contains w)).isEmpty) = true
      · exfalso
        simp only [register_envvars, h1, h2, Bool.not_true, Bool.false_eq_true,
          if_false, if_true] at hok
        exact Option.noConfusion hok
      · have h2f : (check && !(req.filter (fun w => !env.contains w)).isEmpty) = false :=
          Bool.eq_false_iff.mpr h2
        simp only [register_envvars, h1, h2f, Bool.not_true, Bool.false_eq_true,
          if_false]
        exact mem_setUpdate envv req v
    · have h1f : (req.filter (fun w => !validEnvvarName w)).isEmpty = false :=
        Bool.eq_false_iff.mpr h1
      exfalso
      simp only [register_envvars, h1f, Bool.not_false, if_true] at hok
      exact Option.noConfusion hok

/-- C10 (witness): the atomicity theorem at concrete inputs: an invalid name
("A B") errors with the set unchanged; a well-formed but undefined name
("MISSING") errors under strict checking with the set unchanged; a defined
name ("HOME") is unioned in on success. -/
theorem C10_witness :
    ((register_envvars true ["HOME"] ["X"] ["A B"]).err = some .invalidNames ∧
      (register_envvars true ["HOME"] ["X"] ["A B"]).envvars = ["X"]) ∧
    ((register_envvars true ["HOME"] ["X"] ["MISSING"]).err = some .undefinedVars ∧
      (register_envvars true ["HOME"] ["X"] ["MISSING"]).envvars = ["X"]) ∧
    ("HOME" ∈ (register_envvars true ["HOME"] ["X"] ["HOME"]).envvars ↔
      ("HOME" ∈ (["X"] : List String) ∨ "HOME" ∈ (["HOME"] : List String))) :=
  ⟨(C10_register_envvars true ["HOME"] ["X"] ["A B"]).1 ⟨"A B", by decide, by decide⟩,
   (C10_register_envvars true ["HOME"] ["X"] ["MISSING"]).2.1
     (by decide) rfl ⟨"MISSING", by decide, by decide⟩,
   (C10_register_envvars true ["HOME"] ["X"] ["HOME"]).2.2 (by decide) "HOME"⟩

end Snakemake
